import Mathlib

/-!
Verification of the SmolDesk automated security scanner
(`security/pentest/automated_security_scan.py`).

The Python scanner is embedded shallowly.  Every network, subprocess and
filesystem interaction is supplied as an explicit oracle describing the
outcome the Python runtime would observe at that call site, and each probe
becomes a pure function on the scanner's result buckets.  The embedding
follows the source line by line; deviations forced by the host language
(character-list implementations of `str.lower`, slicing, and substring
membership) are noted at the definition they concern.
-/

namespace SmolDesk

/-- Result buckets of the scanner (`self.results` in
`SmolDeskSecurityScanner.__init__`): the `vulnerabilities` bucket holds flat
string-keyed dictionaries, while the other three buckets hold plain strings,
exactly as in the source. -/
structure Results where
  vulnerabilities : List (List (String × String))
  warnings : List String
  info : List String
  passed : List String
deriving DecidableEq

def Results.empty : Results := ⟨[], [], [], []⟩

def Results.addVuln (r : Results) (v : List (String × String)) : Results :=
  { r with vulnerabilities := r.vulnerabilities ++ [v] }

def Results.addWarning (r : Results) (w : String) : Results :=
  { r with warnings := r.warnings ++ [w] }

def Results.addInfo (r : Results) (i : String) : Results :=
  { r with info := r.info ++ [i] }

def Results.addPassed (r : Results) (p : String) : Results :=
  { r with passed := r.passed ++ [p] }

/-- Substring test on character lists, modelling the Python membership test
`needle in haystack`. -/
def containsSub (needle : List Char) : List Char → Bool
  | [] => needle.isEmpty
  | c :: t => needle.isPrefixOf (c :: t) || containsSub needle t

/-- Python `str.lower()`; the payload responses the scanner inspects are
ASCII, for which `Char.toLower` agrees with Python. -/
def lowerStr (s : String) : String := String.mk (s.toList.map Char.toLower)

/-- Python `"error" in response.lower()` (line 49 of the source). -/
def hasErrorIndicator (s : String) : Bool :=
  containsSub "error".toList (lowerStr s).toList

/-- Python slicing `s[:n]`: the first `n` characters. -/
def strTake (s : String) (n : Nat) : String := String.mk (s.toList.take n)

/-- The five adversarial payloads sent by `scan_signaling_server`
(`malicious_payloads` in the source); the third is the 10000-character
buffer-overflow probe. -/
def malicious_payloads : List String :=
  [ "\x7b\"type\": \"create-room\", \"roomId\": \"../../../etc/passwd\"\x7d"
  , "\x7b\"type\": \"join-room\", \"roomId\": \"<script>alert(1)</script>\"\x7d"
  , "\x7b\"type\": \"" ++ String.mk (List.replicate 10000 'A') ++ "\"\x7d"
  , "\x7b\"type\": null\x7d"
  , "not-json-data" ]

/-- Outcome of sending one payload and awaiting its response: a reply
string, an `asyncio.TimeoutError` on the 2-second wait, or any other
exception raised by `send`/`recv` (for example the peer closing the
connection), which the inner `except asyncio.TimeoutError` handler does not
catch. -/
inductive RecvOutcome where
  | response (s : String)
  | timeout
  | exnRaised (e : String)
deriving DecidableEq

def RecvOutcome.isExnRaised : RecvOutcome → Bool
  | .exnRaised _ => true
  | _ => false

/-- The vulnerability dictionary appended for an accepted payload; the
payload is truncated to its first 100 characters (`payload[:100]`). -/
def inputValidationVuln (payload : String) : List (String × String) :=
  [ ("type", "Input Validation")
  , ("payload", strTake payload 100)
  , ("description", "Server accepts malicious input without proper validation") ]

/-- Warning recorded by the generic `except Exception` handler of
`scan_signaling_server`. -/
def connFailMsg (e : String) : String :=
  "Could not connect to signaling server: " ++ e

def connOkMsg : String := "WebSocket connection established successfully"

/-- The payload loop of `scan_signaling_server`: payloads are processed in
order; a timeout records nothing, a response without the error indicator
records one vulnerability, and an exception aborts the loop, keeping the
findings already recorded and reporting the exception text. -/
def runPayloads (po : Nat → RecvOutcome) : Nat → List String →
    List (List (String × String)) × Option String
  | _, [] => ([], none)
  | i, payload :: rest =>
    match po i with
    | .timeout => runPayloads po (i + 1) rest
    | .exnRaised e => ([], some e)
    | .response s =>
      let here := if hasErrorIndicator s then [] else [inputValidationVuln payload]
      let res := runPayloads po (i + 1) rest
      (here ++ res.1, res.2)

def wsUri (host : String) (port : Int) : String :=
  "ws://" ++ host ++ ":" ++ toString port

/-- `scan_signaling_server`: connect, send the payloads, and either record
the passed finding (loop completed) or fall into the generic exception
handler, which records a connection warning. -/
def scan_signaling_server (connectO : String → Except String Unit)
    (po : Nat → RecvOutcome) (host : String) (port : Int) (r : Results) : Results :=
  match connectO (wsUri host port) with
  | .error e => r.addWarning (connFailMsg e)
  | .ok _ =>
    match runPayloads po 0 malicious_payloads with
    | (vulns, none) => (vulns.foldl Results.addVuln r).addPassed connOkMsg
    | (vulns, some e) => (vulns.foldl Results.addVuln r).addWarning (connFailMsg e)

/-- Outcome of `subprocess.run([dep, "--version"], ..., timeout=5)`:
completion with a return code and captured stdout, a
`subprocess.TimeoutExpired`, or a `FileNotFoundError`. -/
inductive DepOutcome where
  | completed (returncode : Nat) (stdout : String)
  | timeoutExpired
  | fileNotFound
deriving DecidableEq

/-- The fixed dependency registry of `scan_system_dependencies`. -/
def dependencies : List (String × String) :=
  [ ("ffmpeg", "CVE database check needed")
  , ("xdotool", "Input injection vector")
  , ("ydotool", "Privilege escalation potential")
  , ("wl-clipboard", "Clipboard data leakage")
  , ("xclip", "X11 security context") ]

/-- Python `result.stdout.split('\n')[0]`. -/
def firstLine (s : String) : String :=
  String.mk (s.toList.takeWhile (fun c => c ≠ '\n'))

/-- Body of the loop of `scan_system_dependencies` for one registry entry:
return code 0 records the first stdout line with the annotated risk, a
non-zero return code records `Not found`, and a caught `TimeoutExpired` or
`FileNotFoundError` records `Not available`. -/
def depStep (depO : String → DepOutcome) (acc : Results) (d : String × String) : Results :=
  match depO d.1 with
  | .completed 0 out => acc.addInfo (d.1 ++ ": " ++ firstLine out ++ " - Risk: " ++ d.2)
  | .completed _ _ => acc.addInfo (d.1 ++ ": Not found")
  | _ => acc.addInfo (d.1 ++ ": Not available")

def scan_system_dependencies (depO : String → DepOutcome) (r : Results) : Results :=
  dependencies.foldl (depStep depO) r

/-- State of one filesystem path as the probe observes it when every stat
either succeeds or reports absence — the fragment on which the embedding
is exact for every interpreter version.  A permission-denied stat, which
`Path.exists()` re-raises as a `PermissionError` on the evidenced
interpreter (CPython 3.11, and every version up to 3.12), is modelled
separately by `StatOutcome` and the exception-aware probe. -/
inductive FsEntry where
  | absent
  | present (mode : Nat)
deriving DecidableEq

/-- The fixed path registry of `scan_file_permissions`
(`critical_files` in the source). -/
def critical_files : List String :=
  [ "/opt/smoldesk/smoldesk"
  , "/usr/bin/smoldesk"
  , "/etc/smoldesk/"
  , "~/.local/share/smoldesk/" ]

/-- `Path(p).expanduser()` for the shapes occurring in the registry: a
leading `~/` is replaced by the home directory. -/
def expanduser (home p : String) : String :=
  match p.toList with
  | '~' :: '/' :: rest => home ++ String.mk ('/' :: rest)
  | _ => p

def modeDigit (n : Nat) : Char := Char.ofNat (48 + n % 8)

/-- Python `oct(st_mode)[-3:]`: the three low octal digits of the mode.
This agrees with the slice for every real `st_mode`, whose file-type bits
make it at least `0o1000`. -/
def modeOct3 (m : Nat) : String :=
  String.mk [modeDigit (m / 64), modeDigit (m / 8), modeDigit m]

def unsafeModes : List String := ["777", "776", "666"]

def safeModes : List String := ["755", "644"]

/-- The vulnerability dictionary appended for an over-permissive path. -/
def filePermVuln (path mode : String) : List (String × String) :=
  [ ("type", "File Permissions")
  , ("file", path)
  , ("permissions", mode)
  , ("description", "File has overly permissive permissions") ]

/-- Body of the loop of `scan_file_permissions` for one (already expanded)
path.  An absent path is skipped without any finding. -/
def checkFile (fs : String → FsEntry) (r : Results) (path : String) : Results :=
  match fs path with
  | .present m =>
    let mode := modeOct3 m
    if unsafeModes.contains mode then
      r.addVuln (filePermVuln path mode)
    else if safeModes.contains mode then
      r.addPassed (path ++ ": Safe permissions (" ++ mode ++ ")")
    else
      r.addWarning (path ++ ": Unusual permissions (" ++ mode ++ ")")
  | .absent => r

def scan_file_permissions (fs : String → FsEntry) (home : String) (r : Results) : Results :=
  critical_files.foldl (fun acc p => checkFile fs acc (expanduser home p)) r

/-- Outcome of `requests.get(https_url, timeout=5, verify=False)`: a
`requests.exceptions.RequestException`, some other exception, or a response
with a status code. -/
inductive ReqOutcome where
  | requestException (e : String)
  | otherException (e : String)
  | status (code : Nat)
deriving DecidableEq

def httpsUrl (host : String) (port : Int) : String :=
  "https://" ++ host ++ ":" ++ toString port

def certWarnMsg : String := "HTTPS endpoint responds but certificate not verified"

/-- Message of the `NameError` raised at `socket.socket()` on line 134: the
source module never imports `socket`, so the TLS-handshake branch of
`scan_network_security` always raises before reaching the protocol check. -/
def socketNameError : String := "name socket is not defined"

/-- `scan_network_security`: the HTTPS request either raises (first or
second handler) or returns; in the latter case the undefined `socket` name
raises a `NameError` that the generic handler converts into the
`TLS scan failed` info finding, so the protocol-version branch is
unreachable. -/
def scan_network_security (reqO : String → ReqOutcome) (host : String) (port : Int)
    (r : Results) : Results :=
  match reqO (httpsUrl host port) with
  | .requestException _ => r.addInfo "No HTTPS endpoint found"
  | .otherException e => r.addInfo ("TLS scan failed: " ++ e)
  | .status code =>
    let r1 := if code == 200 then r.addWarning certWarnMsg else r
    r1.addInfo ("TLS scan failed: " ++ socketNameError)

/-- The weak-password fixture of `scan_authentication_security`; the source
defines it and never reads it. -/
def weak_passwords : List String :=
  [ "password", "123456", "admin", "smoldesk"
  , "password123", "qwerty", "", "test" ]

def authNote : String := "Authentication testing requires running instance"

/-- `scan_authentication_security`: performs no I/O and appends the single
fixed info note. -/
def scan_authentication_security (r : Results) : Results :=
  r.addInfo authNote

/-- Risk score computed by `generate_report`. -/
def risk_score (r : Results) : Nat :=
  r.vulnerabilities.length * 10 + r.warnings.length * 3

inductive RiskTier where
  | low
  | medium
  | high
deriving DecidableEq

/-- Tier printed by `generate_report`: `== 0` low, `< 20` medium,
otherwise high. -/
def risk_tier (score : Nat) : RiskTier :=
  if score == 0 then .low else if score < 20 then .medium else .high

/-- All oracles a scan run consumes. -/
structure World where
  connect : String → Except String Unit
  payload : Nat → RecvOutcome
  dep : String → DepOutcome
  fs : String → FsEntry
  home : String
  request : String → ReqOutcome

/-- The scanner object: target fields set by `__init__` plus the result
buckets. -/
structure Scanner where
  target_host : String
  target_port : Int
  results : Results

def Scanner.init (host : String) (port : Int) : Scanner :=
  ⟨host, port, Results.empty⟩

/-- `run_scan`: the five probes in source order, each total, threading the
result buckets. -/
def run_scan (w : World) (s : Scanner) : Scanner :=
  let r1 := scan_signaling_server w.connect w.payload s.target_host s.target_port s.results
  let r2 := scan_system_dependencies w.dep r1
  let r3 := scan_file_permissions w.fs w.home r2
  let r4 := scan_network_security w.request s.target_host s.target_port r3
  let r5 := scan_authentication_security r4
  { s with results := r5 }

/-- Generic structured-data values, modelling what `json.dump` writes and
`json.load` reads back. -/
inductive Json where
  | null
  | bool (b : Bool)
  | num (n : Int)
  | str (s : String)
  | arr (elems : List Json)
  | obj (fields : List (String × Json))

/-- Serialization of one vulnerability dictionary. -/
def encodeVulnEntry (v : List (String × String)) : Json :=
  Json.obj (v.map (fun kv => (kv.1, Json.str kv.2)))

/-- Serialization of `scanner.results` as performed by
`json.dump(scanner.results, f)`: a four-key document whose
`vulnerabilities` bucket holds objects and whose other buckets hold plain
strings. -/
def encodeResults (r : Results) : Json :=
  Json.obj
    [ ("vulnerabilities", Json.arr (r.vulnerabilities.map encodeVulnEntry))
    , ("warnings", Json.arr (r.warnings.map Json.str))
    , ("info", Json.arr (r.info.map Json.str))
    , ("passed", Json.arr (r.passed.map Json.str)) ]

def decodeStrList : List Json → Option (List String)
  | [] => some []
  | Json.str s :: t =>
    match decodeStrList t with
    | some l => some (s :: l)
    | none => none
  | _ => none

def decodePairList : List (String × Json) → Option (List (String × String))
  | [] => some []
  | (k, Json.str v) :: t =>
    match decodePairList t with
    | some l => some ((k, v) :: l)
    | none => none
  | _ => none

def decodeVulnList : List Json → Option (List (List (String × String)))
  | [] => some []
  | Json.obj fields :: t =>
    match decodePairList fields, decodeVulnList t with
    | some v, some l => some (v :: l)
    | _, _ => none
  | _ => none

/-- Re-parsing the persisted artifact back into result buckets. -/
def decodeResults : Json → Option Results
  | Json.obj [("vulnerabilities", Json.arr vs), ("warnings", Json.arr ws),
      ("info", Json.arr infos), ("passed", Json.arr ps)] =>
    match decodeVulnList vs, decodeStrList ws, decodeStrList infos, decodeStrList ps with
    | some a, some b, some c, some d => some ⟨a, b, c, d⟩
    | _, _, _, _ => none
  | _ => none

def Json.getField : Json → String → Option Json
  | .obj fields, k => fields.lookup k
  | _, _ => none

/-- Shape the specification asserts for one element of a severity bucket of
the persisted artifact: an object carrying `category`, `description` and an
`evidence` mapping. -/
def specFindingObject (j : Json) : Bool :=
  match j with
  | .obj fields =>
    (fields.lookup "category").isSome && (fields.lookup "description").isSome
      && (match fields.lookup "evidence" with
          | some (.obj _) => true
          | _ => false)
  | _ => false

def specBucketShape (j : Json) (k : String) : Bool :=
  match Json.getField j k with
  | some (.arr elems) => elems.all specFindingObject
  | _ => false

/-- Shape the specification asserts for the whole artifact: each of the
four severity buckets an ordered sequence of such objects. -/
def specArtifactShape (j : Json) : Bool :=
  ["vulnerabilities", "warnings", "info", "passed"].all (specBucketShape j)

/-- Whether `asyncio.run(scanner.run_scan())` (together with the optional
`json.dump`) completes, is interrupted by `KeyboardInterrupt`, or raises
some other exception. -/
inductive ScanEvent where
  | normal
  | interrupt
  | fault (e : String)

structure MainResult where
  exitCode : Nat
  finalMsg : Option String
  results : Option Results
  artifact : Option Json

def interruptMsg : String := "Scan interrupted by user"

/-- `main`: `argparse` parses `--port` with `type=int` and performs no
range check, so the parsed integer reaches the scanner unmodified and the
scan always runs; normal completion returns from `main` (process exit 0),
`KeyboardInterrupt` prints the interrupt message and exits 1, any other
exception prints the failure message and exits 1. -/
def pyMain (host : String) (port : Int) (output : Option String)
    (w : World) (ev : ScanEvent) : MainResult :=
  match ev with
  | .interrupt => ⟨1, some interruptMsg, none, none⟩
  | .fault e => ⟨1, some ("Scan failed: " ++ e), none, none⟩
  | .normal =>
    let s := run_scan w (Scanner.init host port)
    ⟨0, none, some s.results, output.map (fun _ => encodeResults s.results)⟩

/-! ## Helper lemmas shared between the claim theorems -/

theorem foldl_addVuln (l : List (List (String × String))) :
    ∀ r : Results, l.foldl Results.addVuln r
      = { r with vulnerabilities := r.vulnerabilities ++ l } := by
  induction l with
  | nil => intro r; simp
  | cons v t ih => intro r; simp [ih, Results.addVuln]

theorem auth_char (r : Results) :
    scan_authentication_security r = { r with info := r.info ++ [authNote] } := rfl

theorem net_vuln_eq (reqO : String → ReqOutcome) (host : String) (port : Int)
    (r : Results) :
    (scan_network_security reqO host port r).vulnerabilities = r.vulnerabilities := by
  cases h : reqO (httpsUrl host port) with
  | requestException e => simp [scan_network_security, h, Results.addInfo]
  | otherException e => simp [scan_network_security, h, Results.addInfo]
  | status code =>
    by_cases hc : (code == 200) = true <;>
      simp [scan_network_security, h, hc, Results.addInfo, Results.addWarning]

theorem net_passed_eq (reqO : String → ReqOutcome) (host : String) (port : Int)
    (r : Results) :
    (scan_network_security reqO host port r).passed = r.passed := by
  cases h : reqO (httpsUrl host port) with
  | requestException e => simp [scan_network_security, h, Results.addInfo]
  | otherException e => simp [scan_network_security, h, Results.addInfo]
  | status code =>
    by_cases hc : (code == 200) = true <;>
      simp [scan_network_security, h, hc, Results.addInfo, Results.addWarning]

theorem net_info_len (reqO : String → ReqOutcome) (host : String) (port : Int)
    (r : Results) :
    (scan_network_security reqO host port r).info.length = r.info.length + 1 := by
  cases h : reqO (httpsUrl host port) with
  | requestException e => simp [scan_network_security, h, Results.addInfo]
  | otherException e => simp [scan_network_security, h, Results.addInfo]
  | status code =>
    by_cases hc : (code == 200) = true <;>
      simp [scan_network_security, h, hc, Results.addInfo, Results.addWarning]

theorem net_warn_or (reqO : String → ReqOutcome) (host : String) (port : Int)
    (r : Results) :
    (scan_network_security reqO host port r).warnings = r.warnings
      ∨ (scan_network_security reqO host port r).warnings = r.warnings ++ [certWarnMsg] := by
  cases h : reqO (httpsUrl host port) with
  | requestException e => exact Or.inl (by simp [scan_network_security, h, Results.addInfo])
  | otherException e => exact Or.inl (by simp [scan_network_security, h, Results.addInfo])
  | status code =>
    by_cases hc : (code == 200) = true
    · exact Or.inr (by simp [scan_network_security, h, hc, Results.addInfo, Results.addWarning])
    · exact Or.inl (by simp [scan_network_security, h, hc, Results.addInfo, Results.addWarning])

theorem net_info_mem (reqO : String → ReqOutcome) (host : String) (port : Int)
    (r : Results) (x : String) (hx : x ∈ r.info) :
    x ∈ (scan_network_security reqO host port r).info := by
  cases h : reqO (httpsUrl host port) with
  | requestException e =>
    simp only [scan_network_security, h, Results.addInfo]
    exact List.mem_append_left _ hx
  | otherException e =>
    simp only [scan_network_security, h, Results.addInfo]
    exact List.mem_append_left _ hx
  | status code =>
    by_cases hc : (code == 200) = true <;>
      simp only [scan_network_security, h, hc, Results.addInfo, Results.addWarning,
        if_true, if_false, Bool.false_eq_true, reduceIte] <;>
      exact List.mem_append_left _ hx

theorem net_warn_mem (reqO : String → ReqOutcome) (host : String) (port : Int)
    (r : Results) (x : String) (hx : x ∈ r.warnings) :
    x ∈ (scan_network_security reqO host port r).warnings := by
  rcases net_warn_or reqO host port r with h | h
  · rw [h]; exact hx
  · rw [h]; exact List.mem_append_left _ hx

/-- C1: the risk score is ten times the number of vulnerability findings
plus three times the number of warning findings; the tier is low exactly on
score 0, medium exactly on scores strictly between 0 and 20, high exactly
on scores at least 20 (so 19 is medium and 20 is high); info and passed
findings never change the score. -/
theorem c1_risk_scoring :
    ∀ (r : Results) (n : Nat) (v : List (String × String)) (w i p : String),
      risk_score r = 10 * r.vulnerabilities.length + 3 * r.warnings.length
      ∧ (risk_tier n = RiskTier.low ↔ n = 0)
      ∧ (risk_tier n = RiskTier.medium ↔ 0 < n ∧ n < 20)
      ∧ (risk_tier n = RiskTier.high ↔ 20 ≤ n)
      ∧ risk_tier 19 = RiskTier.medium
      ∧ risk_tier 20 = RiskTier.high
      ∧ risk_score (r.addVuln v) = risk_score r + 10
      ∧ risk_score (r.addWarning w) = risk_score r + 3
      ∧ risk_score (r.addInfo i) = risk_score r
      ∧ risk_score (r.addPassed p) = risk_score r := by
  intro r n v w i p
  refine ⟨by unfold risk_score; omega, ?_, ?_, ?_, by decide, by decide, ?_, ?_, ?_, ?_⟩
  · unfold risk_tier; split_ifs with h1 h2 <;> simp_all
  · unfold risk_tier; split_ifs with h1 h2 <;> simp_all
    omega
  · unfold risk_tier; split_ifs with h1 h2 <;> simp_all
  · simp [risk_score, Results.addVuln]; omega
  · simp [risk_score, Results.addWarning]; omega
  · simp [risk_score, Results.addInfo]
  · simp [risk_score, Results.addPassed]

/-- C8: normal completion of `main` exits 0 for every world, including the
ones in which the scan records vulnerabilities; a `KeyboardInterrupt`
prints the fixed interrupt message (distinct from every failure message)
and an internal fault prints the failure message and exits 1. -/
theorem c8_exit_behavior :
    ∀ (host : String) (port : Int) (out : Option String) (w : World) (e : String),
      (pyMain host port out w ScanEvent.normal).exitCode = 0
      ∧ (pyMain host port out w ScanEvent.interrupt).finalMsg = some interruptMsg
      ∧ (pyMain host port out w ScanEvent.interrupt).exitCode = 1
      ∧ (pyMain host port out w (ScanEvent.fault e)).exitCode = 1
      ∧ (pyMain host port out w (ScanEvent.fault e)).finalMsg = some ("Scan failed: " ++ e)
      ∧ (pyMain host port out w ScanEvent.interrupt).finalMsg
          ≠ (pyMain host port out w (ScanEvent.fault e)).finalMsg := by
  intro host port out w e
  refine ⟨rfl, rfl, rfl, rfl, rfl, ?_⟩
  intro h
  have h1 : interruptMsg = "Scan failed: " ++ e := by
    simpa [pyMain] using h
  have h2 := congrArg String.data h1
  rw [String.data_append] at h2
  have h3 : (interruptMsg).data.take 6 = ("Scan failed: ").data.take 6 := by
    rw [h2, List.take_append_of_le_length (by decide)]
  exact absurd h3 (by decide)

/-- C9: for every target and every request outcome, the network/TLS probe
records no vulnerability and no passed finding, records exactly one info
finding, and records at most one warning: the TLS-version branch is
unreachable because the raw handshake references the never-imported
`socket` module, so every attempt lands in an info branch. -/
theorem c9_network_probe_inert :
    ∀ (reqO : String → ReqOutcome) (host : String) (port : Int) (r : Results),
      (scan_network_security reqO host port r).vulnerabilities = r.vulnerabilities
      ∧ (scan_network_security reqO host port r).passed = r.passed
      ∧ (scan_network_security reqO host port r).info.length = r.info.length + 1
      ∧ ((scan_network_security reqO host port r).warnings = r.warnings
          ∨ (scan_network_security reqO host port r).warnings = r.warnings ++ [certWarnMsg]) :=
  fun reqO host port r =>
    ⟨net_vuln_eq reqO host port r, net_passed_eq reqO host port r,
      net_info_len reqO host port r, net_warn_or reqO host port r⟩

/-- C10: the authentication probe consumes no oracle, appends exactly one
info finding with the fixed note, changes nothing else, and therefore ends
every scan run with that note as the last info entry regardless of target
and world; its weak-password fixture never influences the outcome. -/
theorem c10_authentication_probe :
    ∀ (w : World) (s : Scanner) (r : Results),
      scan_authentication_security r = { r with info := r.info ++ [authNote] }
      ∧ (run_scan w s).results.info.getLast? = some authNote
      ∧ authNote ∈ (run_scan w s).results.info := by
  intro w s r
  refine ⟨rfl, ?_, ?_⟩
  · show (scan_authentication_security _).info.getLast? = some authNote
    rw [auth_char]
    simp
  · show authNote ∈ (scan_authentication_security _).info
    rw [auth_char]
    exact List.mem_append_right _ (by simp)

/-- Findings the payload loop is specified to record, payload by payload:
one vulnerability for a response arriving without the error indicator, none
for a timed-out wait. -/
def specPayloadVulns (po : Nat → RecvOutcome) : Nat → List String →
    List (List (String × String))
  | _, [] => []
  | i, payload :: rest =>
    (match po i with
     | .response s => if hasErrorIndicator s then [] else [inputValidationVuln payload]
     | _ => []) ++ specPayloadVulns po (i + 1) rest

theorem runPayloads_noExn (po : Nat → RecvOutcome) :
    ∀ (ps : List String) (i : Nat),
      (∀ k, k < ps.length → (po (i + k)).isExnRaised = false) →
      runPayloads po i ps = (specPayloadVulns po i ps, none) := by
  intro ps
  induction ps with
  | nil => intro i h; simp [runPayloads, specPayloadVulns]
  | cons p t ih =>
    intro i h
    have h0 : (po i).isExnRaised = false := by simpa using h 0 (by simp)
    have ht : ∀ k, k < t.length → (po (i + 1 + k)).isExnRaised = false := by
      intro k hk
      have hlt : k + 1 < t.length + 1 := Nat.succ_lt_succ hk
      have := h (k + 1) (by simpa using hlt)
      simpa [Nat.add_assoc, Nat.add_comm 1 k] using this
    cases hpo : po i with
    | timeout => simp [runPayloads, specPayloadVulns, hpo, ih (i + 1) ht]
    | exnRaised e => rw [hpo] at h0; simp [RecvOutcome.isExnRaised] at h0
    | response s => simp [runPayloads, specPayloadVulns, hpo, ih (i + 1) ht]

theorem sig_char_noExn (co : String → Except String Unit) (po : Nat → RecvOutcome)
    (host : String) (port : Int) (r : Results)
    (hco : co (wsUri host port) = Except.ok ())
    (hpo : ∀ k, k < malicious_payloads.length → (po k).isExnRaised = false) :
    scan_signaling_server co po host port r
      = { r with
          vulnerabilities := r.vulnerabilities ++ specPayloadVulns po 0 malicious_payloads,
          passed := r.passed ++ [connOkMsg] } := by
  have hrp := runPayloads_noExn po malicious_payloads 0 (by simpa using hpo)
  simp only [scan_signaling_server, hco, hrp, foldl_addVuln, Results.addPassed]

/-- C2: in the signaling probe, when the connection is established and each
of the five payloads is actually sent and awaited (no mid-exchange
connection failure), the vulnerability findings recorded are exactly the
per-payload specification: one finding for each payload whose response
arrives without the case-insensitive `error` indicator, and no finding for
a payload whose wait times out. -/
theorem c2_signaling_payload_findings
    (co : String → Except String Unit) (po : Nat → RecvOutcome)
    (host : String) (port : Int) (r : Results)
    (hco : co (wsUri host port) = Except.ok ())
    (hpo : ∀ k, k < malicious_payloads.length → (po k).isExnRaised = false) :
    (scan_signaling_server co po host port r).vulnerabilities
      = r.vulnerabilities ++ specPayloadVulns po 0 malicious_payloads := by
  rw [sig_char_noExn co po host port r hco hpo]

/-- Witness for C2 at the all-timeout oracle. -/
theorem c2_signaling_payload_findings_witness :
    (scan_signaling_server (fun _ => (Except.ok () : Except String Unit))
        (fun _ => RecvOutcome.timeout) "localhost" 3000 Results.empty).vulnerabilities
      = Results.empty.vulnerabilities
        ++ specPayloadVulns (fun _ => RecvOutcome.timeout) 0 malicious_payloads :=
  c2_signaling_payload_findings (fun _ => (Except.ok () : Except String Unit))
    (fun _ => RecvOutcome.timeout) "localhost" 3000 Results.empty rfl (fun _ _ => rfl)

/-- C7 counterexample: the connection to the target is established, but the
first payload exchange raises a non-timeout exception (the peer closing the
connection); the probe then records no passed finding at all, contradicting
the claim that a successful connection yields one passed finding regardless
of what happens during the payload exchange. -/
theorem c7_passed_finding_counterexample :
    (fun _ : String => (Except.ok () : Except String Unit)) (wsUri "localhost" 3000)
      = Except.ok ()
    ∧ (scan_signaling_server (fun _ => (Except.ok () : Except String Unit))
        (fun _ => RecvOutcome.exnRaised "connection closed")
        "localhost" 3000 Results.empty).passed = [] :=
  ⟨rfl, rfl⟩

/-- C7 (amended): the passed finding is appended only after the payload
loop, so it is recorded exactly once whenever the connection is established
and no payload exchange raises a connection failure — responses and
timeouts, in any mix, do not affect it — while a mid-exchange failure
yields no passed finding. -/
theorem c7_passed_finding_amended
    (co : String → Except String Unit) (po : Nat → RecvOutcome)
    (host : String) (port : Int) (r : Results)
    (hco : co (wsUri host port) = Except.ok ())
    (hpo : ∀ k, k < malicious_payloads.length → (po k).isExnRaised = false) :
    (scan_signaling_server co po host port r).passed = r.passed ++ [connOkMsg] := by
  rw [sig_char_noExn co po host port r hco hpo]

/-- Witness for the amended C7 at an oracle answering every payload. -/
theorem c7_passed_finding_amended_witness :
    (scan_signaling_server (fun _ => (Except.ok () : Except String Unit))
        (fun _ => RecvOutcome.response "rejected") "localhost" 3000 Results.empty).passed
      = Results.empty.passed ++ [connOkMsg] :=
  c7_passed_finding_amended (fun _ => (Except.ok () : Except String Unit))
    (fun _ => RecvOutcome.response "rejected") "localhost" 3000 Results.empty rfl
    (fun _ _ => rfl)

/-- Per-path vulnerability contribution of the file permission probe. -/
def permVulnCase (fs : String → FsEntry) (path : String) :
    Option (List (String × String)) :=
  match fs path with
  | .present m =>
    if unsafeModes.contains (modeOct3 m) then some (filePermVuln path (modeOct3 m))
    else none
  | _ => none

/-- Per-path passed contribution of the file permission probe. -/
def permPassedCase (fs : String → FsEntry) (path : String) : Option String :=
  match fs path with
  | .present m =>
    if unsafeModes.contains (modeOct3 m) then none
    else if safeModes.contains (modeOct3 m) then
      some (path ++ ": Safe permissions (" ++ modeOct3 m ++ ")")
    else none
  | _ => none

/-- Per-path warning contribution of the file permission probe. -/
def permWarnCase (fs : String → FsEntry) (path : String) : Option String :=
  match fs path with
  | .present m =>
    if unsafeModes.contains (modeOct3 m) then none
    else if safeModes.contains (modeOct3 m) then none
    else some (path ++ ": Unusual permissions (" ++ modeOct3 m ++ ")")
  | _ => none

theorem checkFile_char (fs : String → FsEntry) (r : Results) (path : String) :
    checkFile fs r path
      = ⟨r.vulnerabilities ++ (permVulnCase fs path).toList,
         r.warnings ++ (permWarnCase fs path).toList,
         r.info,
         r.passed ++ (permPassedCase fs path).toList⟩ := by
  cases hfs : fs path with
  | absent => simp [checkFile, permVulnCase, permWarnCase, permPassedCase, hfs]
  | present m =>
    by_cases h1 : modeOct3 m ∈ unsafeModes
    · simp [checkFile, permVulnCase, permWarnCase, permPassedCase, hfs, h1,
        Results.addVuln]
    · by_cases h2 : modeOct3 m ∈ safeModes
      · simp [checkFile, permVulnCase, permWarnCase, permPassedCase, hfs, h1, h2,
          Results.addPassed]
      · simp [checkFile, permVulnCase, permWarnCase, permPassedCase, hfs, h1, h2,
          Results.addWarning]

theorem foldl_checkFile (fs : String → FsEntry) :
    ∀ (paths : List String) (r : Results),
      paths.foldl (checkFile fs) r
        = ⟨r.vulnerabilities ++ paths.filterMap (permVulnCase fs),
           r.warnings ++ paths.filterMap (permWarnCase fs),
           r.info,
           r.passed ++ paths.filterMap (permPassedCase fs)⟩ := by
  intro paths
  induction paths with
  | nil => intro r; simp
  | cons q t ih =>
    intro r
    rw [List.foldl_cons, checkFile_char, ih]
    cases h1 : permVulnCase fs q <;> cases h2 : permWarnCase fs q <;>
      cases h3 : permPassedCase fs q <;>
      simp [List.filterMap_cons, h1, h2, h3]

theorem scan_file_permissions_char (fs : String → FsEntry) (home : String)
    (r : Results) :
    scan_file_permissions fs home r
      = ⟨r.vulnerabilities
            ++ (critical_files.map (expanduser home)).filterMap (permVulnCase fs),
         r.warnings ++ (critical_files.map (expanduser home)).filterMap (permWarnCase fs),
         r.info,
         r.passed ++ (critical_files.map (expanduser home)).filterMap (permPassedCase fs)⟩ := by
  unfold scan_file_permissions
  rw [← List.foldl_map (expanduser home) (checkFile fs)]
  exact foldl_checkFile fs _ r

/-- The info message `depStep` records for one registry entry. -/
def depMsg (depO : String → DepOutcome) (d : String × String) : String :=
  match depO d.1 with
  | .completed 0 out => d.1 ++ ": " ++ firstLine out ++ " - Risk: " ++ d.2
  | .completed _ _ => d.1 ++ ": Not found"
  | _ => d.1 ++ ": Not available"

theorem depStep_eq (depO : String → DepOutcome) (acc : Results) (d : String × String) :
    depStep depO acc d = acc.addInfo (depMsg depO d) := by
  cases h : depO d.1 with
  | completed n out => cases n <;> simp [depStep, depMsg, h]
  | timeoutExpired => simp [depStep, depMsg, h]
  | fileNotFound => simp [depStep, depMsg, h]

theorem deps_foldl_char (depO : String → DepOutcome) :
    ∀ (ds : List (String × String)) (r : Results),
      ds.foldl (depStep depO) r = { r with info := r.info ++ ds.map (depMsg depO) } := by
  intro ds
  induction ds with
  | nil => intro r; simp
  | cons d t ih => intro r; simp [depStep_eq, ih, Results.addInfo]

theorem scan_deps_char (depO : String → DepOutcome) (r : Results) :
    scan_system_dependencies depO r
      = { r with info := r.info ++ dependencies.map (depMsg depO) } :=
  deps_foldl_char depO dependencies r

theorem authNote_mem_run_scan (w : World) (s : Scanner) :
    authNote ∈ (run_scan w s).results.info := by
  show authNote ∈ (scan_authentication_security _).info
  rw [auth_char]
  exact List.mem_append_right _ (by simp)

/-- C3: for every path and mode: an absent path is skipped with no finding;
an existing path whose low octal mode digits are 777, 776 or 666 produces
exactly one vulnerability finding recording the path and mode; mode 755 or
644 produces a passed finding; any other existing mode produces a warning
finding; and the probe's vulnerability bucket over the whole fixed registry
is exactly the concatenation of the per-path contributions. -/
theorem c3_file_permission_probe
    (fs : String → FsEntry) (home : String) (r : Results) (path : String) (m : Nat) :
    (fs path = FsEntry.absent → checkFile fs r path = r)
    ∧ (fs path = FsEntry.present m → modeOct3 m ∈ unsafeModes →
        checkFile fs r path = r.addVuln (filePermVuln path (modeOct3 m)))
    ∧ (fs path = FsEntry.present m → modeOct3 m ∈ safeModes →
        checkFile fs r path
          = r.addPassed (path ++ ": Safe permissions (" ++ modeOct3 m ++ ")"))
    ∧ (fs path = FsEntry.present m → modeOct3 m ∉ unsafeModes →
        modeOct3 m ∉ safeModes →
        checkFile fs r path
          = r.addWarning (path ++ ": Unusual permissions (" ++ modeOct3 m ++ ")"))
    ∧ (scan_file_permissions fs home r).vulnerabilities
        = r.vulnerabilities
            ++ (critical_files.map (expanduser home)).filterMap (permVulnCase fs) := by
  refine ⟨?_, ?_, ?_, ?_, ?_⟩
  · intro hfs; simp [checkFile, hfs]
  · intro hfs h1; simp [checkFile, hfs, h1]
  · intro hfs h2
    have hx : modeOct3 m = "755" ∨ modeOct3 m = "644" := by
      simpa [safeModes] using h2
    have h1 : modeOct3 m ∉ unsafeModes := by
      rcases hx with hx | hx <;> rw [hx] <;> decide
    simp [checkFile, hfs, h1, h2]
  · intro hfs h1 h2; simp [checkFile, hfs, h1, h2]
  · rw [scan_file_permissions_char]

/-- Concrete filesystem for the C3 witness: a world-writable file, a safely
permissioned file, an unusually permissioned directory, everything else
absent. -/
def c3Fs : String → FsEntry := fun p =>
  if p = "/opt/smoldesk/smoldesk" then FsEntry.present 438
  else if p = "/usr/bin/smoldesk" then FsEntry.present 420
  else if p = "/etc/smoldesk/" then FsEntry.present 448
  else FsEntry.absent

/-- Witness for C3: mode 666 yields the vulnerability finding with path and
mode, mode 644 yields the passed finding, mode 700 yields the warning
finding, and an absent path yields the unchanged buckets. -/
theorem c3_file_permission_probe_witness :
    checkFile c3Fs Results.empty "/opt/smoldesk/smoldesk"
      = Results.empty.addVuln (filePermVuln "/opt/smoldesk/smoldesk" (modeOct3 438))
    ∧ checkFile c3Fs Results.empty "/usr/bin/smoldesk"
      = Results.empty.addPassed
          ("/usr/bin/smoldesk" ++ ": Safe permissions (" ++ modeOct3 420 ++ ")")
    ∧ checkFile c3Fs Results.empty "/etc/smoldesk/"
      = Results.empty.addWarning
          ("/etc/smoldesk/" ++ ": Unusual permissions (" ++ modeOct3 448 ++ ")")
    ∧ checkFile c3Fs Results.empty "/nonexistent" = Results.empty
    ∧ (scan_file_permissions c3Fs "/root" Results.empty).vulnerabilities
      = Results.empty.vulnerabilities
          ++ (critical_files.map (expanduser "/root")).filterMap (permVulnCase c3Fs) :=
  ⟨(c3_file_permission_probe c3Fs "/root" Results.empty "/opt/smoldesk/smoldesk" 438).2.1
      (by decide) (by decide),
   (c3_file_permission_probe c3Fs "/root" Results.empty "/usr/bin/smoldesk" 420).2.2.1
      (by decide) (by decide),
   (c3_file_permission_probe c3Fs "/root" Results.empty "/etc/smoldesk/" 448).2.2.2.1
      (by decide) (by decide) (by decide),
   (c3_file_permission_probe c3Fs "/root" Results.empty "/nonexistent" 0).1 (by decide),
   (c3_file_permission_probe c3Fs "/root" Results.empty "/nonexistent" 0).2.2.2.2⟩

/-- Outcome of the `stat` underlying `Path.exists()` for one registry path.
On the evidenced interpreter (CPython 3.11, and every version up to 3.12)
`pathlib` ignores only the ENOENT/ENOTDIR/EBADF/ELOOP errnos, so
`exists()` reports those as absence but re-raises an EACCES failure as a
`PermissionError`. -/
inductive StatOutcome where
  | absent
  | denied (e : String)
  | present (mode : Nat)
deriving DecidableEq

/-- Exception-aware body of the `scan_file_permissions` loop for one
(already expanded) path: the probe has no handler, so the re-raised
`PermissionError` escapes; otherwise the branches are those of
`checkFile`. -/
def checkFileE (fs : String → StatOutcome) (r : Results) (path : String) :
    Except String Results :=
  match fs path with
  | .denied e => Except.error e
  | .absent => Except.ok r
  | .present m =>
    let mode := modeOct3 m
    Except.ok
      (if unsafeModes.contains mode then r.addVuln (filePermVuln path mode)
       else if safeModes.contains mode then
         r.addPassed (path ++ ": Safe permissions (" ++ mode ++ ")")
       else r.addWarning (path ++ ": Unusual permissions (" ++ mode ++ ")"))

/-- The probe loop with the exception path visible: the first re-raised
`PermissionError` aborts the remaining iterations and escapes the probe. -/
def permLoopE (fs : String → StatOutcome) :
    List String → Results → Except String Results
  | [], r => Except.ok r
  | path :: rest, r =>
    match checkFileE fs r path with
    | Except.error e => Except.error e
    | Except.ok r2 => permLoopE fs rest r2

/-- `scan_file_permissions` with the EACCES exception path of the
evidenced interpreter made explicit. -/
def scan_file_permissionsE (fs : String → StatOutcome) (home : String)
    (r : Results) : Except String Results :=
  permLoopE fs (critical_files.map (expanduser home)) r

/-- View of a stat outcome without the permission failure, as `FsEntry`
records it. -/
def statToEntry : StatOutcome → FsEntry
  | .absent => FsEntry.absent
  | .denied _ => FsEntry.absent
  | .present m => FsEntry.present m

/-- `run_scan` with the file-probe exception visible: the signaling and
dependency probes always complete, but a `PermissionError` escaping
`scan_file_permissions` propagates out of `run_scan`, so the network and
authentication probes never execute. -/
def run_scanE (co : String → Except String Unit) (po : Nat → RecvOutcome)
    (depO : String → DepOutcome) (fsE : String → StatOutcome) (home : String)
    (reqO : String → ReqOutcome) (host : String) (port : Int) :
    Except String Results :=
  let r1 := scan_signaling_server co po host port Results.empty
  let r2 := scan_system_dependencies depO r1
  match scan_file_permissionsE fsE home r2 with
  | Except.error e => Except.error e
  | Except.ok r3 =>
    Except.ok (scan_authentication_security (scan_network_security reqO host port r3))

/-- `main` around the exception-aware scan: an exception escaping the scan
is caught by the generic handler, which prints the failure message and
exits 1; a completed scan returns normally with exit 0. -/
def pyMainE (co : String → Except String Unit) (po : Nat → RecvOutcome)
    (depO : String → DepOutcome) (fsE : String → StatOutcome) (home : String)
    (reqO : String → ReqOutcome) (host : String) (port : Int) : MainResult :=
  match run_scanE co po depO fsE home reqO host port with
  | Except.error e => ⟨1, some ("Scan failed: " ++ e), none, none⟩
  | Except.ok r => ⟨0, none, some r, none⟩

theorem permLoopE_denied_head (fs : String → StatOutcome) (home : String)
    (e : String)
    (hd : fs (expanduser home "/opt/smoldesk/smoldesk") = StatOutcome.denied e) :
    ∀ r : Results, scan_file_permissionsE fs home r = Except.error e := by
  intro r
  simp [scan_file_permissionsE, critical_files, permLoopE, checkFileE, hd]

theorem checkFileE_noDenied (fs : String → StatOutcome)
    (hf : ∀ q e, fs q ≠ StatOutcome.denied e) (r : Results) (path : String) :
    checkFileE fs r path
      = Except.ok (checkFile (fun q => statToEntry (fs q)) r path) := by
  cases hq : fs path with
  | absent => simp [checkFileE, checkFile, statToEntry, hq]
  | denied e => exact absurd hq (hf path e)
  | present m => simp [checkFileE, checkFile, statToEntry, hq]

theorem permLoopE_noDenied (fs : String → StatOutcome)
    (hf : ∀ q e, fs q ≠ StatOutcome.denied e) :
    ∀ (paths : List String) (r : Results),
      permLoopE fs paths r
        = Except.ok (paths.foldl (checkFile (fun q => statToEntry (fs q))) r) := by
  intro paths
  induction paths with
  | nil => intro r; simp [permLoopE]
  | cons q t ih =>
    intro r
    simp [permLoopE, checkFileE_noDenied fs hf, ih, List.foldl_cons]

theorem scan_file_permissionsE_noDenied (fs : String → StatOutcome)
    (hf : ∀ q e, fs q ≠ StatOutcome.denied e) (home : String) (r : Results) :
    scan_file_permissionsE fs home r
      = Except.ok (scan_file_permissions (fun q => statToEntry (fs q)) home r) := by
  rw [scan_file_permissionsE, permLoopE_noDenied fs hf]
  unfold scan_file_permissions
  rw [← List.foldl_map (expanduser home) (checkFile (fun q => statToEntry (fs q)))]

/-- C4 counterexample: with stat of the first registry path
permission-denied, `Path.exists()` re-raises the `PermissionError` on the
evidenced interpreter and the probe has no handler: instead of an info or
warning finding the exception escapes the probe, the scan aborts before
the network and authentication probes run, and `main` reports the failure
with exit 1 — contradicting caught-and-converted, never-propagates, and
never-prevents-the-remaining-probes alike. -/
theorem c4_probe_failure_counterexample :
    scan_file_permissionsE (fun _ => StatOutcome.denied "Permission denied") "/root"
        Results.empty = Except.error "Permission denied"
    ∧ run_scanE (fun _ => Except.error "connection refused")
        (fun _ => RecvOutcome.timeout) (fun _ => DepOutcome.fileNotFound)
        (fun _ => StatOutcome.denied "Permission denied") "/root"
        (fun _ => ReqOutcome.requestException "refused") "localhost" 3000
        = Except.error "Permission denied"
    ∧ (pyMainE (fun _ => Except.error "connection refused")
        (fun _ => RecvOutcome.timeout) (fun _ => DepOutcome.fileNotFound)
        (fun _ => StatOutcome.denied "Permission denied") "/root"
        (fun _ => ReqOutcome.requestException "refused") "localhost" 3000).exitCode
        = 1 :=
  ⟨rfl, rfl, rfl⟩

/-- C4 (amended): connection failures in the signaling probe and missing
or timed-out commands in the dependency probe are caught inside their
probes and converted into warning or info findings; but a permission-denied
stat in the file permission probe is not caught on the evidenced
interpreter: the re-raised `PermissionError` propagates out of the probe
and out of the scan run, the network and authentication probes never
execute, and `main` reports `Scan failed` with exit 1.  Only when no path
stat is permission-denied does the probe complete, and then the scan
agrees with the total model and every remaining probe runs. -/
theorem c4_probe_failure_amended
    (co : String → Except String Unit) (po : Nat → RecvOutcome)
    (depO : String → DepOutcome) (fsE : String → StatOutcome) (home : String)
    (reqO : String → ReqOutcome) (host : String) (port : Int)
    (e pe : String) (r : Results) :
    (co (wsUri host port) = Except.error e →
      connFailMsg e ∈ (scan_signaling_server co po host port r).warnings)
    ∧ (depO "ffmpeg" = DepOutcome.timeoutExpired →
      "ffmpeg: Not available" ∈ (scan_system_dependencies depO r).info)
    ∧ (depO "xclip" = DepOutcome.fileNotFound →
      "xclip: Not available" ∈ (scan_system_dependencies depO r).info)
    ∧ (fsE (expanduser home "/opt/smoldesk/smoldesk") = StatOutcome.denied pe →
      scan_file_permissionsE fsE home r = Except.error pe
      ∧ run_scanE co po depO fsE home reqO host port = Except.error pe
      ∧ (pyMainE co po depO fsE home reqO host port).exitCode = 1
      ∧ (pyMainE co po depO fsE home reqO host port).finalMsg
          = some ("Scan failed: " ++ pe))
    ∧ ((∀ q e2, fsE q ≠ StatOutcome.denied e2) →
      run_scanE co po depO fsE home reqO host port
        = Except.ok (run_scan
            ⟨co, po, depO, fun q => statToEntry (fsE q), home, reqO⟩
            (Scanner.init host port)).results
      ∧ authNote ∈ (run_scan
            ⟨co, po, depO, fun q => statToEntry (fsE q), home, reqO⟩
            (Scanner.init host port)).results.info) := by
  refine ⟨?_, ?_, ?_, ?_, ?_⟩
  · intro hco
    simp [scan_signaling_server, hco, Results.addWarning]
  · intro hdep
    rw [scan_deps_char]
    apply List.mem_append_right
    refine List.mem_map.mpr ⟨("ffmpeg", "CVE database check needed"), by simp [dependencies], ?_⟩
    simp [depMsg, hdep]
  · intro hdep
    rw [scan_deps_char]
    apply List.mem_append_right
    refine List.mem_map.mpr ⟨("xclip", "X11 security context"), by simp [dependencies], ?_⟩
    simp [depMsg, hdep]
  · intro hfs
    have h1 := permLoopE_denied_head fsE home pe hfs
    exact ⟨h1 r, by simp [run_scanE, h1], by simp [pyMainE, run_scanE, h1],
      by simp [pyMainE, run_scanE, h1]⟩
  · intro hf
    constructor
    · simp only [run_scanE, scan_file_permissionsE_noDenied fsE hf]
      simp [run_scan, Scanner.init]
    · exact authNote_mem_run_scan _ _

/-- Witness for the amended C4: concrete failing signaling and dependency
probes, one permission-denied registry stat aborting the scan, and a
denial-free filesystem letting the full scan complete. -/
theorem c4_probe_failure_amended_witness :
    connFailMsg "connection refused"
        ∈ (scan_signaling_server (fun _ => Except.error "connection refused")
            (fun _ => RecvOutcome.timeout) "localhost" 3000 Results.empty).warnings
    ∧ "ffmpeg: Not available"
        ∈ (scan_system_dependencies
            (fun d => if d = "xclip" then DepOutcome.fileNotFound
              else DepOutcome.timeoutExpired) Results.empty).info
    ∧ "xclip: Not available"
        ∈ (scan_system_dependencies
            (fun d => if d = "xclip" then DepOutcome.fileNotFound
              else DepOutcome.timeoutExpired) Results.empty).info
    ∧ (scan_file_permissionsE (fun _ => StatOutcome.denied "Permission denied")
          "/root" Results.empty = Except.error "Permission denied"
        ∧ run_scanE (fun _ => Except.error "connection refused")
            (fun _ => RecvOutcome.timeout)
            (fun d => if d = "xclip" then DepOutcome.fileNotFound
              else DepOutcome.timeoutExpired)
            (fun _ => StatOutcome.denied "Permission denied") "/root"
            (fun _ => ReqOutcome.requestException "refused") "localhost" 3000
            = Except.error "Permission denied"
        ∧ (pyMainE (fun _ => Except.error "connection refused")
            (fun _ => RecvOutcome.timeout)
            (fun d => if d = "xclip" then DepOutcome.fileNotFound
              else DepOutcome.timeoutExpired)
            (fun _ => StatOutcome.denied "Permission denied") "/root"
            (fun _ => ReqOutcome.requestException "refused") "localhost" 3000).exitCode
            = 1
        ∧ (pyMainE (fun _ => Except.error "connection refused")
            (fun _ => RecvOutcome.timeout)
            (fun d => if d = "xclip" then DepOutcome.fileNotFound
              else DepOutcome.timeoutExpired)
            (fun _ => StatOutcome.denied "Permission denied") "/root"
            (fun _ => ReqOutcome.requestException "refused") "localhost" 3000).finalMsg
            = some ("Scan failed: " ++ "Permission denied"))
    ∧ (run_scanE (fun _ => Except.error "connection refused")
          (fun _ => RecvOutcome.timeout)
          (fun d => if d = "xclip" then DepOutcome.fileNotFound
            else DepOutcome.timeoutExpired)
          (fun _ => StatOutcome.absent) "/root"
          (fun _ => ReqOutcome.requestException "refused") "localhost" 3000
          = Except.ok (run_scan
              ⟨fun _ => Except.error "connection refused",
               fun _ => RecvOutcome.timeout,
               fun d => if d = "xclip" then DepOutcome.fileNotFound
                 else DepOutcome.timeoutExpired,
               fun q => statToEntry ((fun _ => StatOutcome.absent) q), "/root",
               fun _ => ReqOutcome.requestException "refused"⟩
              (Scanner.init "localhost" 3000)).results
        ∧ authNote ∈ (run_scan
              ⟨fun _ => Except.error "connection refused",
               fun _ => RecvOutcome.timeout,
               fun d => if d = "xclip" then DepOutcome.fileNotFound
                 else DepOutcome.timeoutExpired,
               fun q => statToEntry ((fun _ => StatOutcome.absent) q), "/root",
               fun _ => ReqOutcome.requestException "refused"⟩
              (Scanner.init "localhost" 3000)).results.info) :=
  ⟨(c4_probe_failure_amended (fun _ => Except.error "connection refused")
      (fun _ => RecvOutcome.timeout)
      (fun d => if d = "xclip" then DepOutcome.fileNotFound else DepOutcome.timeoutExpired)
      (fun _ => StatOutcome.denied "Permission denied") "/root"
      (fun _ => ReqOutcome.requestException "refused") "localhost" 3000
      "connection refused" "Permission denied" Results.empty).1 rfl,
   (c4_probe_failure_amended (fun _ => Except.error "connection refused")
      (fun _ => RecvOutcome.timeout)
      (fun d => if d = "xclip" then DepOutcome.fileNotFound else DepOutcome.timeoutExpired)
      (fun _ => StatOutcome.denied "Permission denied") "/root"
      (fun _ => ReqOutcome.requestException "refused") "localhost" 3000
      "connection refused" "Permission denied" Results.empty).2.1 (by decide),
   (c4_probe_failure_amended (fun _ => Except.error "connection refused")
      (fun _ => RecvOutcome.timeout)
      (fun d => if d = "xclip" then DepOutcome.fileNotFound else DepOutcome.timeoutExpired)
      (fun _ => StatOutcome.denied "Permission denied") "/root"
      (fun _ => ReqOutcome.requestException "refused") "localhost" 3000
      "connection refused" "Permission denied" Results.empty).2.2.1 (by decide),
   (c4_probe_failure_amended (fun _ => Except.error "connection refused")
      (fun _ => RecvOutcome.timeout)
      (fun d => if d = "xclip" then DepOutcome.fileNotFound else DepOutcome.timeoutExpired)
      (fun _ => StatOutcome.denied "Permission denied") "/root"
      (fun _ => ReqOutcome.requestException "refused") "localhost" 3000
      "connection refused" "Permission denied" Results.empty).2.2.2.1 rfl,
   (c4_probe_failure_amended (fun _ => Except.error "connection refused")
      (fun _ => RecvOutcome.timeout)
      (fun d => if d = "xclip" then DepOutcome.fileNotFound else DepOutcome.timeoutExpired)
      (fun _ => StatOutcome.absent) "/root"
      (fun _ => ReqOutcome.requestException "refused") "localhost" 3000
      "connection refused" "Permission denied" Results.empty).2.2.2.2
      (fun _ _ h => StatOutcome.noConfusion h)⟩

theorem decodeStrList_map (l : List String) :
    decodeStrList (l.map Json.str) = some l := by
  induction l with
  | nil => rfl
  | cons s t ih => simp [decodeStrList, ih]

theorem decodePairList_map (v : List (String × String)) :
    decodePairList (v.map (fun kv => (kv.1, Json.str kv.2))) = some v := by
  induction v with
  | nil => rfl
  | cons kv t ih => cases kv; simp [decodePairList, ih]

theorem decodeVulnList_map (vs : List (List (String × String))) :
    decodeVulnList (vs.map encodeVulnEntry) = some vs := by
  induction vs with
  | nil => rfl
  | cons v t ih => simp [decodeVulnList, encodeVulnEntry, decodePairList_map, ih]

/-- Sample aggregate for the C5 counterexample: one vulnerability
dictionary and one plain-string warning, as the scanner itself produces. -/
def c5Sample : Results :=
  ⟨[[("type", "Input Validation"), ("payload", "x"),
     ("description", "Server accepts malicious input without proper validation")]],
   ["test warning"], [], []⟩

/-- C5 counterexample: the persisted artifact of a concrete aggregate with
one warning does not have the shape the claim asserts — the warnings
bucket (like info and passed) holds plain strings, not objects carrying
category, description and an evidence mapping, and even the vulnerability
objects carry a `type` key and flat evidence rather than the asserted
fields. -/
theorem c5_artifact_shape_counterexample :
    specArtifactShape (encodeResults c5Sample) = false := by decide

/-- C5 (amended): the persisted artifact is a document with the four
severity buckets in insertion order, the vulnerabilities bucket holding
flat string-valued objects and the other three buckets holding plain
strings; writing the artifact and re-parsing it with the generic
serializer yields a value equal to the original aggregate, and `main`
persists exactly this serialization when an output path is given. -/
theorem c5_serialization_amended :
    ∀ (r : Results) (host : String) (port : Int) (path : String) (w : World),
      decodeResults (encodeResults r) = some r
      ∧ (pyMain host port (some path) w ScanEvent.normal).artifact
          = some (encodeResults (run_scan w (Scanner.init host port)).results) := by
  intro r host port path w
  constructor
  · cases r with
    | mk v wngs inf ps =>
      simp [encodeResults, decodeResults, decodeVulnList_map, decodeStrList_map]
  · rfl

/-- World in which every probe fails benignly, used to show the scan still
runs to completion for an out-of-range port. -/
def benignWorld : World :=
  ⟨fun _ => Except.error "connection refused",
   fun _ => RecvOutcome.timeout,
   fun _ => DepOutcome.fileNotFound,
   fun _ => FsEntry.absent,
   "/root",
   fun _ => ReqOutcome.requestException "refused"⟩

def c6Run : Results := (run_scan benignWorld (Scanner.init "localhost" 99999)).results

/-- C6 counterexample: invoked with port 99999 — outside 1–65535 — the
program does not fail at startup: the scan runs (the final probe's note is
recorded) and the process exits 0, because `main` performs no port-range
validation. -/
theorem c6_port_validation_counterexample :
    (pyMain "localhost" 99999 none benignWorld ScanEvent.normal).exitCode = 0
    ∧ (pyMain "localhost" 99999 none benignWorld ScanEvent.normal).results = some c6Run
    ∧ authNote ∈ c6Run.info :=
  ⟨rfl, rfl, authNote_mem_run_scan benignWorld (Scanner.init "localhost" 99999)⟩

/-- C6 (amended): `main` performs no port-range validation; for every
integer port accepted by the argument parser the scan runs to completion
(every probe executes, an out-of-range port surfacing only as connection
failures recorded as findings) and normal completion exits 0. -/
theorem c6_port_validation_amended :
    ∀ (host : String) (port : Int) (out : Option String) (w : World),
      (pyMain host port out w ScanEvent.normal).exitCode = 0
      ∧ (pyMain host port out w ScanEvent.normal).results
          = some (run_scan w (Scanner.init host port)).results
      ∧ authNote ∈ (run_scan w (Scanner.init host port)).results.info :=
  fun host port _out w => ⟨rfl, rfl, authNote_mem_run_scan w (Scanner.init host port)⟩

end SmolDesk
